import Mathlib

/-!
Popcorn remote cpuinfo and aggregated meminfo.

A shallow embedding of `kernel/popcorn/remote_cpu_info.c` and of
`meminfo_proc_show` in `fs/proc/meminfo.c`, followed by the properties of
the remote-information exchange and of the memory report.

Conventions of the embedding.

* Kernel memory that the functions touch is an explicit `State`: the
  `saved_cpu_info` table, the wait stations, and a trace of the calls made
  to the transport and to the allocator.
* A C array access outside the array, or through a NULL pointer, is a
  `Fault`; every function that performs one returns `Except Fault _`.
* What the environment decides (the result of `kzalloc`, of `fill_cpu_info`
  and of `pcn_kmsg_send`) is read from an `Env`.
* Machine integers are `Nat` and `Int` with explicit reduction modulo a
  power of two.
-/

namespace Popcorn

/-! ## Data model -/

/-- Modelled from the spec: the architecture tag of a hardware record
(`enum arch_types` of `popcorn/cpuinfo.h`, which is not among the sources).
The spec gives the variants X86, ARM64 and Unknown; a zero-filled record is
the inert Unknown one. -/
inductive arch_types where
  | arch_unknown
  | arch_x86
  | arch_arm
  deriving DecidableEq, Repr

/-- Modelled from the spec: the per-core x86 facts (declared in
`popcorn/cpuinfo.h`, which is not among the sources); the fields are those
that `print_x86_cpuinfo` reads. -/
structure percore_info_x86 where
  _processor : Nat
  _vendor_id : String
  _cpu_family : Int
  _model : Nat
  _model_name : String
  _stepping : Int
  _microcode : Nat
  _cpu_freq : Nat
  _cache_size : Int
  _flags : String
  _nbogomips : Nat
  _TLB_size : Int
  _clflush_size : Nat
  _cache_alignment : Int
  _bits_physical : Nat
  _bits_virtual : Nat
  deriving DecidableEq, Repr

/-- Modelled from the spec: the per-core arm64 facts (declared in
`popcorn/cpuinfo.h`, which is not among the sources); the fields are those
that `print_arm_cpuinfo` reads. -/
structure percore_info_arm64 where
  processor_id : Nat
  compat : Bool
  model_name : String
  model_rev : Int
  model_elf : String
  bogo_mips : Nat
  bogo_mips_fraction : Nat
  flags : String
  cpu_implementer : Nat
  cpu_archtecture : Int
  cpu_variant : Nat
  cpu_part : Nat
  cpu_revision : Int
  deriving DecidableEq, Repr

/-- Modelled from the spec: the x86 member `arch.x86` of the union of a
record (declared in `popcorn/cpuinfo.h`, which is not among the sources). -/
structure cpuinfo_arch_x86 where
  num_cpus : Nat
  cpu : List percore_info_x86
  deriving DecidableEq, Repr

/-- Modelled from the spec: the arm64 member `arch.arm64` of the union of a
record (declared in `popcorn/cpuinfo.h`, which is not among the sources). -/
structure cpuinfo_arch_arm64 where
  num_cpus : Nat
  percore : List percore_info_arm64
  deriving DecidableEq, Repr

/-- Modelled from the spec: the union `arch` of a record (declared in
`popcorn/cpuinfo.h`, which is not among the sources), kept as its two views
side by side. -/
structure cpuinfo_arch where
  x86 : cpuinfo_arch_x86
  arm64 : cpuinfo_arch_arm64
  deriving DecidableEq, Repr

/-- Modelled from the spec: `struct _remote_cpu_info_data` (declared in
`popcorn/cpuinfo.h`, which is not among the sources): a plain value with an
architecture tag and the architecture-specific facts, copied as a whole. -/
structure _remote_cpu_info_data where
  arch_type : arch_types
  arch : cpuinfo_arch
  deriving DecidableEq, Repr

/-- The record that `kzalloc` hands out: every byte zero. -/
def zero_cpu_info : _remote_cpu_info_data :=
  { arch_type := .arch_unknown,
    arch := { x86 := { num_cpus := 0, cpu := [] },
              arm64 := { num_cpus := 0, percore := [] } } }

/-- The two message types this file registers callbacks for (the enum is
declared in `popcorn/pcn_kmsg.h`, which is not among the sources). -/
inductive pcn_kmsg_type where
  | PCN_KMSG_TYPE_REMOTE_PROC_CPUINFO_REQUEST
  | PCN_KMSG_TYPE_REMOTE_PROC_CPUINFO_RESPONSE
  deriving DecidableEq, Repr

/-- Message priorities (declared in `popcorn/pcn_kmsg.h`, which is not among
the sources); the file only uses the normal one. -/
inductive pcn_kmsg_prio where
  | PCN_KMSG_PRIO_NORMAL
  deriving DecidableEq, Repr

/-- The header every message starts with (`DEFINE_PCN_KMSG`, declared in
`popcorn/pcn_kmsg.h`, which is not among the sources); the fields are those
the file assigns. -/
structure pcn_kmsg_hdr where
  type : pcn_kmsg_type
  prio : pcn_kmsg_prio
  deriving DecidableEq, Repr

/-- The message `remote_cpu_info_data_t`: header plus
`REMOTE_CPUINFO_MESSAGE_FIELDS` (lines 30-34). `nid` and `origin_ws` are C
`int`s. -/
structure remote_cpu_info_data_t where
  header : pcn_kmsg_hdr
  cpu_info_data : _remote_cpu_info_data
  nid : Int
  origin_ws : Int
  deriving DecidableEq, Repr

/-- Modelled from the spec: `struct wait_station` (declared in
`wait_station.h`, which is not among the sources): an id, a pending counter
that starts at 1, a payload slot and a completion. `in_use` is the
allocation bit, `priv` the C field `private`, and `pendings` counts the
signals the completion has received and not yet consumed. -/
structure wait_station where
  id : Nat
  in_use : Bool
  pendings_count : Int
  priv : Option remote_cpu_info_data_t
  pendings : Nat
  deriving DecidableEq, Repr

/-- The calls whose effect lies outside the state: transport sends, buffer
releases and completion signals, in program order. -/
inductive Event where
  | pcn_kmsg_send (dest : Int) (msg : remote_cpu_info_data_t)
  | pcn_kmsg_free_msg (msg : remote_cpu_info_data_t)
  | kfree (msg : remote_cpu_info_data_t)
  | complete (ws : Nat)
  deriving DecidableEq, Repr

/-- What a C program does that has no defined result. -/
inductive Fault where
  | cache_index (idx : Int)
  | station_index (idx : Int)
  | null_pointer
  | no_wait_station
  deriving DecidableEq, Repr

/-- The kernel memory the file works on. `saved_cpu_info` is the array of
line 36: one pointer per node, `none` being NULL. -/
structure State where
  saved_cpu_info : List (Option _remote_cpu_info_data)
  wait_stations : List wait_station
  trace : List Event
  deriving DecidableEq, Repr

/-- The environment of one call: the local node id and what the external
functions answer. `fill_cpu_info` gives its return code and the record it
leaves in the buffer; `pcn_kmsg_send` gives the return code of a send. -/
structure Env where
  my_nid : Int
  kzalloc_ok : Bool
  fill_cpu_info : Int × _remote_cpu_info_data
  pcn_kmsg_send : Int → remote_cpu_info_data_t → Int

/-- The errno behind `-ENOMEM`. -/
def ENOMEM : Int := 12

/-! ## Machine arithmetic -/

/-- A value wrapped to a signed 32-bit `int`, as `atomic_t` arithmetic. -/
def wrap_int (x : Int) : Int := (x + 2 ^ 31) % 2 ^ 32 - 2 ^ 31

/-- The kernel primitive `atomic_dec_and_test` on an `atomic_t`: the
decremented counter and whether it is 0. -/
def atomic_dec_and_test (v : Int) : Int × Bool :=
  (wrap_int (v - 1), decide (wrap_int (v - 1) = 0))

/-! ## The cache array -/

/-- Dereference `saved_cpu_info[idx]`. -/
def cache_slot (s : State) (idx : Int) : Except Fault _remote_cpu_info_data :=
  if idx < 0 then .error (.cache_index idx)
  else match s.saved_cpu_info[idx.toNat]? with
    | none => .error (.cache_index idx)
    | some none => .error .null_pointer
    | some (some d) => .ok d

/-- The `memcpy(saved_cpu_info[idx], &data, sizeof(data))` of lines 66 and
109: the whole record replaces what the slot points to. -/
def cache_memcpy (s : State) (idx : Int) (d : _remote_cpu_info_data) :
    Except Fault State :=
  match cache_slot s idx with
  | .error e => .error e
  | .ok _ => .ok { s with saved_cpu_info := s.saved_cpu_info.set idx.toNat (some d) }

/-- Append one event to the trace. -/
def emit (s : State) (e : Event) : State := { s with trace := s.trace ++ [e] }

/-! ## Wait stations -/

/-- Index of the first station that is not in use. -/
def first_free : List wait_station → Option Nat
  | [] => none
  | ws :: rest => if ws.in_use then (first_free rest).map (· + 1) else some 0

/-- Modelled from the spec: the station `get_wait_station` hands out
(`wait_station.c` is not among the sources): "a fresh station with
pending = 1", its payload slot empty and its completion not signalled. -/
def fresh_station (i : Nat) : wait_station :=
  { id := i, in_use := true, pendings_count := 1, priv := none, pendings := 0 }

/-- Modelled from the spec: `get_wait_station` (`wait_station.c` is not
among the sources). "create(owner) -> StationId: allocates a fresh station
with pending = 1"; running out of stations is a resource error. -/
def get_wait_station (s : State) : Except Fault (Nat × State) :=
  match first_free s.wait_stations with
  | none => .error .no_wait_station
  | some i =>
    .ok (i, { s with wait_stations := s.wait_stations.set i (fresh_station i) })

/-- Modelled from the spec: `wait_station(id)` (`wait_station.c` is not
among the sources): the station is looked up by the correlation id the
envelope carries. -/
def wait_station_lookup (s : State) (id : Int) : Except Fault (Nat × wait_station) :=
  if id < 0 then .error (.station_index id)
  else match s.wait_stations[id.toNat]? with
    | none => .error (.station_index id)
    | some ws => .ok (id.toNat, ws)

/-- Modelled from the spec: `wait_at_station` (`wait_station.c` is not among
the sources). "block(id): suspends the calling context until pending
reaches 0, then returns the delivered payload". `none` is the caller still
suspended: the completion has not been signalled. -/
def wait_at_station (s : State) (id : Nat) :
    Except Fault (Option (Option remote_cpu_info_data_t × State)) :=
  match s.wait_stations[id]? with
  | none => .error (.station_index id)
  | some ws =>
    if ws.pendings = 0 then .ok none
    else
      let ws1 : wait_station := { ws with pendings := ws.pendings - 1 }
      .ok (some (ws.priv, { s with wait_stations := s.wait_stations.set id ws1 }))

/-- Modelled from the spec: `put_wait_station` (`wait_station.c` is not
among the sources). "destroy(id): releases the station". -/
def put_wait_station (s : State) (id : Nat) : Except Fault State :=
  match s.wait_stations[id]? with
  | none => .error (.station_index id)
  | some ws =>
    let ws1 : wait_station := { ws with in_use := false }
    .ok { s with wait_stations := s.wait_stations.set id ws1 }

/-! ## The message handlers and the caller -/

/-- The function `handle_remote_cpu_info_response` (lines 143-162): store
the response in the station, decrement the pending counter, and signal the
completion when the counter reaches 0. -/
def handle_remote_cpu_info_response (s : State) (response : remote_cpu_info_data_t) :
    Except Fault (Int × State) :=
  match wait_station_lookup s response.origin_ws with
  | .error e => .error e
  | .ok (i, ws) =>
    let ws1 : wait_station := { ws with priv := some response }
    let r := atomic_dec_and_test ws1.pendings_count
    let ws2 : wait_station := { ws1 with pendings_count := r.1 }
    if r.2 then
      let ws3 : wait_station := { ws2 with pendings := ws2.pendings + 1 }
      .ok (0, emit { s with wait_stations := s.wait_stations.set i ws3 } (.complete i))
    else
      .ok (0, { s with wait_stations := s.wait_stations.set i ws2 })

/-- The function `handle_remote_cpu_info_request` (lines 95-141). -/
def handle_remote_cpu_info_request (env : Env) (s : State) (request : remote_cpu_info_data_t) :
    Except Fault (Int × State) :=
  if !env.kzalloc_ok then .ok (-ENOMEM, s)
  else
    match cache_memcpy s request.nid request.cpu_info_data with
    | .error e => .error e
    | .ok s1 =>
      let response : remote_cpu_info_data_t :=
        { header := { type := .PCN_KMSG_TYPE_REMOTE_PROC_CPUINFO_RESPONSE,
                      prio := .PCN_KMSG_PRIO_NORMAL },
          cpu_info_data := env.fill_cpu_info.2,
          nid := env.my_nid,
          origin_ws := request.origin_ws }
      if env.fill_cpu_info.1 < 0 then
        .ok (0, emit s1 (.kfree response))
      else
        let s2 := emit s1 (.pcn_kmsg_send request.nid response)
        if env.pcn_kmsg_send request.nid response < 0 then
          .ok (0, emit s2 (.kfree response))
        else
          .ok (0, emit (emit s2 (.pcn_kmsg_free_msg request)) (.kfree response))

/-- The transport invoking the response callback for each message that
arrives, in order. -/
def deliver_responses (s : State) : List remote_cpu_info_data_t → Except Fault State
  | [] => .ok s
  | r :: rest =>
    match handle_remote_cpu_info_response s r with
    | .error e => .error e
    | .ok (_, s1) => deliver_responses s1 rest

/-- How a call that may suspend ends. -/
inductive Outcome where
  | returned (s : State)
  | blocked (s : State)
  deriving DecidableEq, Repr

/-- The function `send_remote_cpu_info_request` (lines 38-73). `arrivals`
are the response messages the transport delivers to this node between the
send and the wait. -/
def send_remote_cpu_info_request (env : Env) (arrivals : List remote_cpu_info_data_t)
    (s : State) (nid : Nat) : Except Fault Outcome :=
  match get_wait_station s with
  | .error e => .error e
  | .ok (ws, s1) =>
    if !env.kzalloc_ok then .error .null_pointer
    else
      let request : remote_cpu_info_data_t :=
        { header := { type := .PCN_KMSG_TYPE_REMOTE_PROC_CPUINFO_REQUEST,
                      prio := .PCN_KMSG_PRIO_NORMAL },
          cpu_info_data := env.fill_cpu_info.2,
          nid := env.my_nid,
          origin_ws := ws }
      let s2 := emit s1 (.pcn_kmsg_send nid request)
      match deliver_responses s2 arrivals with
      | .error e => .error e
      | .ok s3 =>
        match wait_at_station s3 ws with
        | .error e => .error e
        | .ok none => .ok (.blocked s3)
        | .ok (some (none, _)) => .error .null_pointer
        | .ok (some (some response, s4)) =>
          match put_wait_station s4 ws with
          | .error e => .error e
          | .ok s5 =>
            match cache_memcpy s5 nid response.cpu_info_data with
            | .error e => .error e
            | .ok s6 =>
              .ok (.returned (emit (emit s6 (.kfree request)) (.pcn_kmsg_free_msg response)))

/-- The function `get_number_cpus_from_remote_node` (lines 75-93). -/
def get_number_cpus_from_remote_node (s : State) (nid : Nat) : Except Fault Nat :=
  match cache_slot s nid with
  | .error e => .error e
  | .ok d =>
    match d.arch_type with
    | .arch_x86 => .ok d.arch.x86.num_cpus
    | .arch_arm => .ok d.arch.arm64.num_cpus
    | _ => .ok 0

/-- What `remote_proc_cpu_info` writes to the `seq_file`, call by call; the
text of each per-architecture block is left to the printer named. -/
inductive SeqItem where
  | banner (nid : Nat)
  | print_x86_cpuinfo (data : _remote_cpu_info_data) (count : Nat)
  | print_arm_cpuinfo (data : _remote_cpu_info_data) (count : Nat)
  | print_unknown_cpuinfo
  | newline
  deriving DecidableEq, Repr

/-- The function `remote_proc_cpu_info` (lines 252-270). -/
def remote_proc_cpu_info (s : State) (m : List SeqItem) (nid vpos : Nat) :
    Except Fault (Int × List SeqItem) :=
  let m1 := m ++ [.banner nid]
  match cache_slot s nid with
  | .error e => .error e
  | .ok d =>
    let m2 :=
      match d.arch_type with
      | .arch_x86 => m1 ++ [.print_x86_cpuinfo d vpos]
      | .arch_arm => m1 ++ [.print_arm_cpuinfo d vpos]
      | _ => m1 ++ [.print_unknown_cpuinfo]
    .ok (0, m2 ++ [.newline])

/-- The allocation loop of `remote_cpu_info_init` (lines 169-171): one
zero-filled record per node, NULL where `kzalloc` fails. -/
def remote_cpu_info_init (MAX_POPCORN_NODES : Nat) (kzalloc : Nat → Bool) (s : State) :
    Int × State :=
  let slots := (List.range MAX_POPCORN_NODES).map
    (fun i => if kzalloc i then some zero_cpu_info else none)
  (0, { s with saved_cpu_info := slots })

/-- The cache as `remote_cpu_info_init` leaves it when every allocation
succeeds: `MAX_POPCORN_NODES` slots, none of them NULL. -/
def cache_ready (MAX_POPCORN_NODES : Nat) (s : State) : Prop :=
  s.saved_cpu_info.length = MAX_POPCORN_NODES ∧ ∀ slot ∈ s.saved_cpu_info, slot ≠ none

instance (n : Nat) (s : State) : Decidable (cache_ready n s) := by
  unfold cache_ready; infer_instance

/-! ## Concrete nodes used to exercise the definitions -/

/-- The sends recorded in a trace, oldest first. -/
def sent_messages : List Event → List (Int × remote_cpu_info_data_t)
  | [] => []
  | .pcn_kmsg_send d m :: rest => (d, m) :: sent_messages rest
  | _ :: rest => sent_messages rest

/-- The completion signals recorded in a trace, oldest first. -/
def completions : List Event → List Nat
  | [] => []
  | .complete i :: rest => i :: completions rest
  | _ :: rest => completions rest

/-- The state an `Outcome` carries. -/
def Outcome.state : Outcome → State
  | .returned s => s
  | .blocked s => s

/-- A station nobody holds. -/
def idle_station (i : Nat) : wait_station :=
  { id := i, in_use := false, pendings_count := 0, priv := none, pendings := 0 }

/-- A node with four cache slots and two wait stations, right after
`remote_cpu_info_init`. -/
def node4 : State :=
  (remote_cpu_info_init 4 (fun _ => true)
    { saved_cpu_info := [], wait_stations := [idle_station 0, idle_station 1], trace := [] }).2

/-- An x86 record with two cores. -/
def x86_two_cores : _remote_cpu_info_data :=
  { arch_type := .arch_x86,
    arch := { x86 := { num_cpus := 2, cpu := [] }, arm64 := { num_cpus := 0, percore := [] } } }

/-- An arm64 record with eight cores. -/
def arm_eight_cores : _remote_cpu_info_data :=
  { arch_type := .arch_arm,
    arch := { x86 := { num_cpus := 0, cpu := [] }, arm64 := { num_cpus := 8, percore := [] } } }

/-- Node 0 with a working allocator, collector and transport. -/
def env_good : Env :=
  { my_nid := 0, kzalloc_ok := true, fill_cpu_info := (0, x86_two_cores),
    pcn_kmsg_send := fun _ _ => 0 }

/-- Node 0 with a transport whose every send fails with `-EINVAL`. -/
def env_send_fails : Env :=
  { my_nid := 0, kzalloc_ok := true, fill_cpu_info := (0, x86_two_cores),
    pcn_kmsg_send := fun _ _ => -22 }

/-- Node 0 with a collector that fails with `-EINVAL`. -/
def env_fill_fails : Env :=
  { my_nid := 0, kzalloc_ok := true, fill_cpu_info := (-22, zero_cpu_info),
    pcn_kmsg_send := fun _ _ => 0 }

/-- A request from node `n` carrying an arm64 record and station id 5. -/
def request_from (n : Int) : remote_cpu_info_data_t :=
  { header := { type := .PCN_KMSG_TYPE_REMOTE_PROC_CPUINFO_REQUEST, prio := .PCN_KMSG_PRIO_NORMAL },
    cpu_info_data := arm_eight_cores, nid := n, origin_ws := 5 }

/-- A response from node 1 for station `ws` carrying record `d`. -/
def response_for (ws : Int) (d : _remote_cpu_info_data) : remote_cpu_info_data_t :=
  { header := { type := .PCN_KMSG_TYPE_REMOTE_PROC_CPUINFO_RESPONSE, prio := .PCN_KMSG_PRIO_NORMAL },
    cpu_info_data := d, nid := 1, origin_ws := ws }

end Popcorn

namespace Meminfo

/-! ## The memory report: `meminfo_proc_show` -/

/-- Build-time parameters of the kernel: the width of `unsigned long`, the
constants the report uses, and the `CONFIG_` switches that add or remove
lines. -/
structure Config where
  w : Nat
  PAGE_SHIFT : Nat
  THREAD_SIZE : Nat
  HPAGE_PMD_NR : Nat
  VMALLOC_TOTAL : Nat
  CONFIG_HIGHMEM : Bool
  CONFIG_MMU : Bool
  CONFIG_QUICKLIST : Bool
  CONFIG_MEMORY_FAILURE : Bool
  CONFIG_TRANSPARENT_HUGEPAGE : Bool
  CONFIG_CMA : Bool

/-- The fields of the kernel `struct sysinfo` that `si_meminfo` and
`si_swapinfo` fill and the report reads, each an `unsigned long`. -/
structure sysinfo where
  totalram : Nat
  freeram : Nat
  sharedram : Nat
  bufferram : Nat
  totalswap : Nat
  freeswap : Nat
  totalhigh : Nat
  freehigh : Nat

/-- The counters of the kernel `enum zone_stat_item` that
`global_page_state` is asked for. -/
inductive zone_stat_item where
  | NR_INACTIVE_ANON
  | NR_ACTIVE_ANON
  | NR_INACTIVE_FILE
  | NR_ACTIVE_FILE
  | NR_UNEVICTABLE
  | NR_MLOCK
  | NR_ANON_PAGES
  | NR_FILE_MAPPED
  | NR_FILE_PAGES
  | NR_FILE_DIRTY
  | NR_WRITEBACK
  | NR_SLAB_RECLAIMABLE
  | NR_SLAB_UNRECLAIMABLE
  | NR_PAGETABLE
  | NR_KERNEL_STACK
  | NR_UNSTABLE_NFS
  | NR_BOUNCE
  | NR_WRITEBACK_TEMP
  | NR_ANON_TRANSPARENT_HUGEPAGES
  | NR_FREE_CMA_PAGES
  deriving DecidableEq, Repr

/-- The kernel `enum lru_list`, `LRU_BASE` to `NR_LRU_LISTS - 1`. -/
inductive lru_list where
  | LRU_INACTIVE_ANON
  | LRU_ACTIVE_ANON
  | LRU_INACTIVE_FILE
  | LRU_ACTIVE_FILE
  | LRU_UNEVICTABLE
  deriving DecidableEq, Repr

/-- The counter `NR_LRU_BASE + lru`: the kernel keeps the LRU counters in
the order of the LRU lists. -/
def NR_LRU_BASE_plus : lru_list → zone_stat_item
  | .LRU_INACTIVE_ANON => .NR_INACTIVE_ANON
  | .LRU_ACTIVE_ANON => .NR_ACTIVE_ANON
  | .LRU_INACTIVE_FILE => .NR_INACTIVE_FILE
  | .LRU_ACTIVE_FILE => .NR_ACTIVE_FILE
  | .LRU_UNEVICTABLE => .NR_UNEVICTABLE

/-- What the local kernel answers to the calls `meminfo_proc_show` makes. -/
structure Kernel where
  i : sysinfo
  vm_committed_as : Nat
  global_page_state : zone_stat_item → Nat
  total_swapcache_pages : Nat
  zone_watermark_low : List Nat
  vm_commit_limit : Nat
  mmap_pages_allocated : Nat
  quicklist_total_size : Nat
  num_poisoned_pages : Nat
  totalcma_pages : Nat

/-- Modelled from the spec: `remote_mem_info_response_t` (declared in
`popcorn/remote_meminfo.h`, which is not among the sources): the remote
record of "named kilobyte-valued quantities", one `unsigned long` per line
of the report. -/
structure remote_mem_info_response_t where
  MemTotal : Nat
  MemFree : Nat
  MemAvailable : Nat
  Buffers : Nat
  Cached : Nat
  SwapCached : Nat
  Active : Nat
  Inactive : Nat
  Active_anon : Nat
  Inactive_anon : Nat
  Active_file : Nat
  Inactive_file : Nat
  Unevictable : Nat
  Mlocked : Nat
  HighTotal : Nat
  HighFree : Nat
  LowTotal : Nat
  LowFree : Nat
  MmapCopy : Nat
  SwapTotal : Nat
  SwapFree : Nat
  Dirty : Nat
  Writeback : Nat
  AnonPages : Nat
  Mapped : Nat
  Shmem : Nat
  Slab : Nat
  SReclaimable : Nat
  SUnreclaim : Nat
  KernelStack : Nat
  PageTables : Nat
  Quicklists : Nat
  NFS_Unstable : Nat
  Bounce : Nat
  WritebackTmp : Nat
  CommitLimit : Nat
  Committed_AS : Nat
  VmallocTotal : Nat
  VmallocUsed : Nat
  VmallocChunk : Nat
  HardwareCorrupted : Nat
  AnonHugePages : Nat
  CmaTotal : Nat
  CmaFree : Nat

/-- The lines of the report, named after their tags in the format string. -/
inductive Label where
  | MemTotal | MemFree | MemAvailable | Buffers | Cached | SwapCached
  | Active | Inactive | Active_anon | Inactive_anon | Active_file | Inactive_file
  | Unevictable | Mlocked
  | HighTotal | HighFree | LowTotal | LowFree
  | MmapCopy
  | SwapTotal | SwapFree | Dirty | Writeback | AnonPages | Mapped | Shmem
  | Slab | SReclaimable | SUnreclaim | KernelStack | PageTables
  | Quicklists
  | NFS_Unstable | Bounce | WritebackTmp | CommitLimit | Committed_AS
  | VmallocTotal | VmallocUsed | VmallocChunk
  | HardwareCorrupted
  | AnonHugePages
  | CmaTotal | CmaFree
  deriving DecidableEq, Repr

/-- The tag each line carries in the format string (lines 95-149). -/
def Label.text : Label → String
  | .MemTotal => "MemTotal" | .MemFree => "MemFree" | .MemAvailable => "MemAvailable"
  | .Buffers => "Buffers" | .Cached => "Cached" | .SwapCached => "SwapCached"
  | .Active => "Active" | .Inactive => "Inactive"
  | .Active_anon => "Active(anon)" | .Inactive_anon => "Inactive(anon)"
  | .Active_file => "Active(file)" | .Inactive_file => "Inactive(file)"
  | .Unevictable => "Unevictable" | .Mlocked => "Mlocked"
  | .HighTotal => "HighTotal" | .HighFree => "HighFree"
  | .LowTotal => "LowTotal" | .LowFree => "LowFree"
  | .MmapCopy => "MmapCopy"
  | .SwapTotal => "SwapTotal" | .SwapFree => "SwapFree" | .Dirty => "Dirty"
  | .Writeback => "Writeback" | .AnonPages => "AnonPages" | .Mapped => "Mapped"
  | .Shmem => "Shmem" | .Slab => "Slab" | .SReclaimable => "SReclaimable"
  | .SUnreclaim => "SUnreclaim" | .KernelStack => "KernelStack"
  | .PageTables => "PageTables" | .Quicklists => "Quicklists"
  | .NFS_Unstable => "NFS_Unstable" | .Bounce => "Bounce"
  | .WritebackTmp => "WritebackTmp" | .CommitLimit => "CommitLimit"
  | .Committed_AS => "Committed_AS" | .VmallocTotal => "VmallocTotal"
  | .VmallocUsed => "VmallocUsed" | .VmallocChunk => "VmallocChunk"
  | .HardwareCorrupted => "HardwareCorrupted" | .AnonHugePages => "AnonHugePages"
  | .CmaTotal => "CmaTotal" | .CmaFree => "CmaFree"

/-! ### `unsigned long` and `long` arithmetic -/

/-- Addition of two `unsigned long`. -/
def wadd (w a b : Nat) : Nat := (a + b) % 2 ^ w

/-- Subtraction of two `unsigned long`. -/
def wsub (w a b : Nat) : Nat := (a + (2 ^ w - b % 2 ^ w)) % 2 ^ w

/-- Multiplication of two `unsigned long`. -/
def wmul (w a b : Nat) : Nat := (a * b) % 2 ^ w

/-- Left shift of an `unsigned long`. -/
def wshl (w a k : Nat) : Nat := (a * 2 ^ k) % 2 ^ w

/-- Conversion of an `unsigned long` to `long` (twos complement). -/
def to_long (w x : Nat) : Int :=
  if 2 * (x % 2 ^ w) < 2 ^ w then ((x % 2 ^ w : Nat) : Int)
  else ((x % 2 ^ w : Nat) : Int) - ((2 ^ w : Nat) : Int)

/-- Conversion of a `long` to `unsigned long`. -/
def to_ulong (w : Nat) (z : Int) : Nat := (z % ((2 ^ w : Nat) : Int)).toNat

/-- The macro `K(x)` of line 45: `(x) << (PAGE_SHIFT - 10)`. -/
def K (cfg : Config) (x : Nat) : Nat := wshl cfg.w x (cfg.PAGE_SHIFT - 10)

/-! ### The computations before the `seq_printf` -/

/-- The array `pages[]` filled by the loop of lines 55-56. -/
def pages (k : Kernel) (lru : lru_list) : Nat := k.global_page_state (NR_LRU_BASE_plus lru)

/-- The sum `wmark_low` of lines 58-59 over all zones. -/
def wmark_low (cfg : Config) (k : Kernel) : Nat :=
  k.zone_watermark_low.foldl (wadd cfg.w) 0

/-- The value `cached` of lines 50-53. -/
def cached (cfg : Config) (k : Kernel) : Int :=
  let c := to_long cfg.w
    (wsub cfg.w (wsub cfg.w (k.global_page_state .NR_FILE_PAGES) k.total_swapcache_pages)
      k.i.bufferram)
  if c < 0 then 0 else c

/-- The value of `pagecache` after line 75. -/
def pagecache_total (w active_file inactive_file : Nat) : Nat :=
  wadd w active_file inactive_file

/-- The value of `pagecache` after line 76. -/
def pagecache_term (w wmark_low active_file inactive_file : Nat) : Nat :=
  wsub w (pagecache_total w active_file inactive_file)
    (min (pagecache_total w active_file inactive_file / 2) wmark_low)

/-- The right-hand side of lines 83-84. -/
def slab_term (w wmark_low slab_reclaimable : Nat) : Nat :=
  wsub w slab_reclaimable (min (slab_reclaimable / 2) wmark_low)

/-- The value of `available` after lines 68-87. Each `+=` adds an
`unsigned long` to the `long`, so the sum is formed in `unsigned long` and
converted back. -/
def available (w freeram wmark_low active_file inactive_file slab_reclaimable : Nat) : Int :=
  let available0 := to_long w (wsub w freeram wmark_low)
  let available1 := to_long w (wadd w (to_ulong w available0)
    (pagecache_term w wmark_low active_file inactive_file))
  let available2 := to_long w (wadd w (to_ulong w available1)
    (slab_term w wmark_low slab_reclaimable))
  if available2 < 0 then 0 else available2

/-- The value `available` on the local kernel state. -/
def available_of (cfg : Config) (k : Kernel) : Int :=
  available cfg.w k.i.freeram (wmark_low cfg k) (pages k .LRU_ACTIVE_FILE)
    (pages k .LRU_INACTIVE_FILE) (k.global_page_state .NR_SLAB_RECLAIMABLE)

/-! ### The `seq_printf` of lines 94-210 -/

/-- The tags of the format string, in order, with the `#ifdef` blocks. -/
def meminfo_format (cfg : Config) : List Label :=
  [.MemTotal, .MemFree, .MemAvailable, .Buffers, .Cached, .SwapCached, .Active, .Inactive,
   .Active_anon, .Inactive_anon, .Active_file, .Inactive_file, .Unevictable, .Mlocked]
  ++ (if cfg.CONFIG_HIGHMEM then [.HighTotal, .HighFree, .LowTotal, .LowFree] else [])
  ++ (if !cfg.CONFIG_MMU then [.MmapCopy] else [])
  ++ [.SwapTotal, .SwapFree, .Dirty, .Writeback, .AnonPages, .Mapped, .Shmem, .Slab,
      .SReclaimable, .SUnreclaim, .KernelStack, .PageTables]
  ++ (if cfg.CONFIG_QUICKLIST then [.Quicklists] else [])
  ++ [.NFS_Unstable, .Bounce, .WritebackTmp, .CommitLimit, .Committed_AS, .VmallocTotal,
      .VmallocUsed, .VmallocChunk]
  ++ (if cfg.CONFIG_MEMORY_FAILURE then [.HardwareCorrupted] else [])
  ++ (if cfg.CONFIG_TRANSPARENT_HUGEPAGE then [.AnonHugePages] else [])
  ++ (if cfg.CONFIG_CMA then [.CmaTotal, .CmaFree] else [])

/-- The arguments of the `seq_printf`, in order, with the `#ifdef` blocks.
`rem_mem` is what `remote_proc_mem_info` left in the local variable. -/
def meminfo_args (cfg : Config) (k : Kernel) (rem_mem : remote_mem_info_response_t) : List Nat :=
  let gps := k.global_page_state
  [wadd cfg.w (K cfg k.i.totalram) rem_mem.MemTotal,
   wadd cfg.w (K cfg k.i.freeram) rem_mem.MemFree,
   wadd cfg.w (K cfg (to_ulong cfg.w (available_of cfg k))) rem_mem.MemAvailable,
   wadd cfg.w (K cfg k.i.bufferram) rem_mem.Buffers,
   wadd cfg.w (K cfg (to_ulong cfg.w (cached cfg k))) rem_mem.Cached,
   wadd cfg.w (K cfg k.total_swapcache_pages) rem_mem.SwapCached,
   wadd cfg.w (K cfg (wadd cfg.w (pages k .LRU_ACTIVE_ANON) (pages k .LRU_ACTIVE_FILE)))
     rem_mem.Active,
   wadd cfg.w (K cfg (wadd cfg.w (pages k .LRU_INACTIVE_ANON) (pages k .LRU_INACTIVE_FILE)))
     rem_mem.Inactive,
   wadd cfg.w (K cfg (pages k .LRU_ACTIVE_ANON)) rem_mem.Active_anon,
   wadd cfg.w (K cfg (pages k .LRU_INACTIVE_ANON)) rem_mem.Inactive_anon,
   wadd cfg.w (K cfg (pages k .LRU_ACTIVE_FILE)) rem_mem.Active_file,
   wadd cfg.w (K cfg (pages k .LRU_INACTIVE_FILE)) rem_mem.Inactive_file,
   wadd cfg.w (K cfg (pages k .LRU_UNEVICTABLE)) rem_mem.Unevictable,
   wadd cfg.w (K cfg (gps .NR_MLOCK)) rem_mem.Mlocked]
  ++ (if cfg.CONFIG_HIGHMEM then
        [wadd cfg.w (K cfg k.i.totalhigh) rem_mem.HighTotal,
         wadd cfg.w (K cfg k.i.freehigh) rem_mem.HighFree,
         wadd cfg.w (K cfg (wsub cfg.w k.i.totalram k.i.totalhigh)) rem_mem.LowTotal,
         wadd cfg.w (K cfg (wsub cfg.w k.i.freeram k.i.freehigh)) rem_mem.LowFree]
      else [])
  ++ (if !cfg.CONFIG_MMU then
        [wadd cfg.w (K cfg (k.mmap_pages_allocated % 2 ^ cfg.w)) rem_mem.MmapCopy]
      else [])
  ++ [wadd cfg.w (K cfg k.i.totalswap) rem_mem.SwapTotal,
      wadd cfg.w (K cfg k.i.freeswap) rem_mem.SwapFree,
      wadd cfg.w (K cfg (gps .NR_FILE_DIRTY)) rem_mem.Dirty,
      wadd cfg.w (K cfg (gps .NR_WRITEBACK)) rem_mem.Writeback,
      wadd cfg.w (K cfg (gps .NR_ANON_PAGES)) rem_mem.AnonPages,
      wadd cfg.w (K cfg (gps .NR_FILE_MAPPED)) rem_mem.Mapped,
      wadd cfg.w (K cfg k.i.sharedram) rem_mem.Shmem,
      wadd cfg.w (K cfg (wadd cfg.w (gps .NR_SLAB_RECLAIMABLE) (gps .NR_SLAB_UNRECLAIMABLE)))
        rem_mem.Slab,
      wadd cfg.w (K cfg (gps .NR_SLAB_RECLAIMABLE)) rem_mem.SReclaimable,
      wadd cfg.w (K cfg (gps .NR_SLAB_UNRECLAIMABLE)) rem_mem.SUnreclaim,
      wadd cfg.w (wmul cfg.w (gps .NR_KERNEL_STACK) cfg.THREAD_SIZE / 1024) rem_mem.KernelStack,
      wadd cfg.w (K cfg (gps .NR_PAGETABLE)) rem_mem.PageTables]
  ++ (if cfg.CONFIG_QUICKLIST then
        [wadd cfg.w (K cfg k.quicklist_total_size) rem_mem.Quicklists]
      else [])
  ++ [wadd cfg.w (K cfg (gps .NR_UNSTABLE_NFS)) rem_mem.NFS_Unstable,
      wadd cfg.w (K cfg (gps .NR_BOUNCE)) rem_mem.Bounce,
      wadd cfg.w (K cfg (gps .NR_WRITEBACK_TEMP)) rem_mem.WritebackTmp,
      wadd cfg.w (K cfg k.vm_commit_limit) rem_mem.CommitLimit,
      wadd cfg.w (K cfg k.vm_committed_as) rem_mem.Committed_AS,
      wadd cfg.w (cfg.VMALLOC_TOTAL % 2 ^ cfg.w / 2 ^ 10) rem_mem.VmallocTotal,
      0,
      0]
  ++ (if cfg.CONFIG_MEMORY_FAILURE then
        [wadd cfg.w (wshl cfg.w k.num_poisoned_pages (cfg.PAGE_SHIFT - 10))
           rem_mem.HardwareCorrupted]
      else [])
  ++ (if cfg.CONFIG_TRANSPARENT_HUGEPAGE then
        [wadd cfg.w (K cfg (wmul cfg.w (gps .NR_ANON_TRANSPARENT_HUGEPAGES) cfg.HPAGE_PMD_NR))
           rem_mem.AnonHugePages]
      else [])
  ++ (if cfg.CONFIG_CMA then
        [wadd cfg.w (K cfg k.totalcma_pages) rem_mem.CmaTotal,
         wadd cfg.w (K cfg (gps .NR_FREE_CMA_PAGES)) rem_mem.CmaFree]
      else [])

/-- The report `meminfo_proc_show` writes with its `seq_printf`: each tag
with the value printed after it. -/
def meminfo_proc_show (cfg : Config) (k : Kernel) (rem_mem : remote_mem_info_response_t) :
    List (Label × Nat) :=
  (meminfo_format cfg).zip (meminfo_args cfg k rem_mem)

/-! ### The report as the specification words it -/

/-- A page count converted to kilobytes, with no word size in play. -/
def pages_to_kb (cfg : Config) (x : Nat) : Nat := x * 2 ^ (cfg.PAGE_SHIFT - 10)

/-- The local quantity behind each line, converted to kilobytes. -/
def local_kb (cfg : Config) (k : Kernel) : Label → Nat
  | .MemTotal => pages_to_kb cfg k.i.totalram
  | .MemFree => pages_to_kb cfg k.i.freeram
  | .MemAvailable => pages_to_kb cfg (available_of cfg k).toNat
  | .Buffers => pages_to_kb cfg k.i.bufferram
  | .Cached => pages_to_kb cfg (cached cfg k).toNat
  | .SwapCached => pages_to_kb cfg k.total_swapcache_pages
  | .Active => pages_to_kb cfg (pages k .LRU_ACTIVE_ANON + pages k .LRU_ACTIVE_FILE)
  | .Inactive => pages_to_kb cfg (pages k .LRU_INACTIVE_ANON + pages k .LRU_INACTIVE_FILE)
  | .Active_anon => pages_to_kb cfg (pages k .LRU_ACTIVE_ANON)
  | .Inactive_anon => pages_to_kb cfg (pages k .LRU_INACTIVE_ANON)
  | .Active_file => pages_to_kb cfg (pages k .LRU_ACTIVE_FILE)
  | .Inactive_file => pages_to_kb cfg (pages k .LRU_INACTIVE_FILE)
  | .Unevictable => pages_to_kb cfg (pages k .LRU_UNEVICTABLE)
  | .Mlocked => pages_to_kb cfg (k.global_page_state .NR_MLOCK)
  | .HighTotal => pages_to_kb cfg k.i.totalhigh
  | .HighFree => pages_to_kb cfg k.i.freehigh
  | .LowTotal => pages_to_kb cfg (wsub cfg.w k.i.totalram k.i.totalhigh)
  | .LowFree => pages_to_kb cfg (wsub cfg.w k.i.freeram k.i.freehigh)
  | .MmapCopy => pages_to_kb cfg k.mmap_pages_allocated
  | .SwapTotal => pages_to_kb cfg k.i.totalswap
  | .SwapFree => pages_to_kb cfg k.i.freeswap
  | .Dirty => pages_to_kb cfg (k.global_page_state .NR_FILE_DIRTY)
  | .Writeback => pages_to_kb cfg (k.global_page_state .NR_WRITEBACK)
  | .AnonPages => pages_to_kb cfg (k.global_page_state .NR_ANON_PAGES)
  | .Mapped => pages_to_kb cfg (k.global_page_state .NR_FILE_MAPPED)
  | .Shmem => pages_to_kb cfg k.i.sharedram
  | .Slab => pages_to_kb cfg (k.global_page_state .NR_SLAB_RECLAIMABLE
      + k.global_page_state .NR_SLAB_UNRECLAIMABLE)
  | .SReclaimable => pages_to_kb cfg (k.global_page_state .NR_SLAB_RECLAIMABLE)
  | .SUnreclaim => pages_to_kb cfg (k.global_page_state .NR_SLAB_UNRECLAIMABLE)
  | .KernelStack => wmul cfg.w (k.global_page_state .NR_KERNEL_STACK) cfg.THREAD_SIZE / 1024
  | .PageTables => pages_to_kb cfg (k.global_page_state .NR_PAGETABLE)
  | .Quicklists => pages_to_kb cfg k.quicklist_total_size
  | .NFS_Unstable => pages_to_kb cfg (k.global_page_state .NR_UNSTABLE_NFS)
  | .Bounce => pages_to_kb cfg (k.global_page_state .NR_BOUNCE)
  | .WritebackTmp => pages_to_kb cfg (k.global_page_state .NR_WRITEBACK_TEMP)
  | .CommitLimit => pages_to_kb cfg k.vm_commit_limit
  | .Committed_AS => pages_to_kb cfg k.vm_committed_as
  | .VmallocTotal => cfg.VMALLOC_TOTAL % 2 ^ cfg.w / 2 ^ 10
  | .VmallocUsed => 0
  | .VmallocChunk => 0
  | .HardwareCorrupted => pages_to_kb cfg k.num_poisoned_pages
  | .AnonHugePages => pages_to_kb cfg
      (k.global_page_state .NR_ANON_TRANSPARENT_HUGEPAGES * cfg.HPAGE_PMD_NR)
  | .CmaTotal => pages_to_kb cfg k.totalcma_pages
  | .CmaFree => pages_to_kb cfg (k.global_page_state .NR_FREE_CMA_PAGES)

/-- The field of the remote record that has the name of the line. -/
def remote_field (rem_mem : remote_mem_info_response_t) : Label → Nat
  | .MemTotal => rem_mem.MemTotal | .MemFree => rem_mem.MemFree
  | .MemAvailable => rem_mem.MemAvailable | .Buffers => rem_mem.Buffers
  | .Cached => rem_mem.Cached | .SwapCached => rem_mem.SwapCached
  | .Active => rem_mem.Active | .Inactive => rem_mem.Inactive
  | .Active_anon => rem_mem.Active_anon | .Inactive_anon => rem_mem.Inactive_anon
  | .Active_file => rem_mem.Active_file | .Inactive_file => rem_mem.Inactive_file
  | .Unevictable => rem_mem.Unevictable | .Mlocked => rem_mem.Mlocked
  | .HighTotal => rem_mem.HighTotal | .HighFree => rem_mem.HighFree
  | .LowTotal => rem_mem.LowTotal | .LowFree => rem_mem.LowFree
  | .MmapCopy => rem_mem.MmapCopy
  | .SwapTotal => rem_mem.SwapTotal | .SwapFree => rem_mem.SwapFree
  | .Dirty => rem_mem.Dirty | .Writeback => rem_mem.Writeback
  | .AnonPages => rem_mem.AnonPages | .Mapped => rem_mem.Mapped
  | .Shmem => rem_mem.Shmem | .Slab => rem_mem.Slab
  | .SReclaimable => rem_mem.SReclaimable | .SUnreclaim => rem_mem.SUnreclaim
  | .KernelStack => rem_mem.KernelStack | .PageTables => rem_mem.PageTables
  | .Quicklists => rem_mem.Quicklists
  | .NFS_Unstable => rem_mem.NFS_Unstable | .Bounce => rem_mem.Bounce
  | .WritebackTmp => rem_mem.WritebackTmp | .CommitLimit => rem_mem.CommitLimit
  | .Committed_AS => rem_mem.Committed_AS | .VmallocTotal => rem_mem.VmallocTotal
  | .VmallocUsed => rem_mem.VmallocUsed | .VmallocChunk => rem_mem.VmallocChunk
  | .HardwareCorrupted => rem_mem.HardwareCorrupted
  | .AnonHugePages => rem_mem.AnonHugePages
  | .CmaTotal => rem_mem.CmaTotal | .CmaFree => rem_mem.CmaFree

/-- The value the specification gives a line: 0 for the two retired vmalloc
lines, otherwise local kilobytes plus the remote field, as `unsigned long`. -/
def aggregated (cfg : Config) (k : Kernel) (rem_mem : remote_mem_info_response_t)
    (l : Label) : Nat :=
  if l = .VmallocUsed ∨ l = .VmallocChunk then 0
  else (local_kb cfg k l + remote_field rem_mem l) % 2 ^ cfg.w

/-- The report of the local node alone: every line its local kilobytes, as
`unsigned long`. -/
def local_only_report (cfg : Config) (k : Kernel) : List (Label × Nat) :=
  (meminfo_format cfg).map (fun l => (l, local_kb cfg k l % 2 ^ cfg.w))

/-- The remote record with every field 0. -/
def zero_remote : remote_mem_info_response_t :=
  { MemTotal := 0, MemFree := 0, MemAvailable := 0, Buffers := 0, Cached := 0, SwapCached := 0,
    Active := 0, Inactive := 0, Active_anon := 0, Inactive_anon := 0, Active_file := 0,
    Inactive_file := 0, Unevictable := 0, Mlocked := 0, HighTotal := 0, HighFree := 0,
    LowTotal := 0, LowFree := 0, MmapCopy := 0, SwapTotal := 0, SwapFree := 0, Dirty := 0,
    Writeback := 0, AnonPages := 0, Mapped := 0, Shmem := 0, Slab := 0, SReclaimable := 0,
    SUnreclaim := 0, KernelStack := 0, PageTables := 0, Quicklists := 0, NFS_Unstable := 0,
    Bounce := 0, WritebackTmp := 0, CommitLimit := 0, Committed_AS := 0, VmallocTotal := 0,
    VmallocUsed := 0, VmallocChunk := 0, HardwareCorrupted := 0, AnonHugePages := 0,
    CmaTotal := 0, CmaFree := 0 }

end Meminfo

namespace Popcorn

/-! ## Lemmas on the embedding -/

theorem wrap_int_of_range (x : Int) (h0 : -2 ^ 31 ≤ x) (h1 : x < 2 ^ 31) : wrap_int x = x := by
  unfold wrap_int
  have h : (x + 2 ^ 31) % 2 ^ 32 = x + 2 ^ 31 := by
    apply Int.emod_eq_of_lt <;> omega
  omega

theorem wrap_int_pred_ne_zero (x : Int) (h0 : -2 ^ 31 ≤ x) (h1 : x < 2 ^ 31) (hx : x ≠ 1) :
    wrap_int (x - 1) ≠ 0 := by
  by_cases hmin : x = -2 ^ 31
  · subst hmin; decide
  · rw [wrap_int_of_range (x - 1) (by omega) (by omega)]; omega

theorem first_free_lt (l : List wait_station) (i : Nat) (h : first_free l = some i) :
    i < l.length := by
  induction l generalizing i with
  | nil => simp [first_free] at h
  | cons ws rest ih =>
    simp only [first_free] at h
    split at h
    · cases hr : first_free rest with
      | none => simp [hr] at h
      | some j =>
        simp [hr] at h
        have := ih j hr
        simp; omega
    · simp at h; subst h; simp

theorem cache_slot_ready (MAX : Nat) (s : State) (idx : Int) (hready : cache_ready MAX s)
    (h0 : 0 ≤ idx) (h1 : idx < MAX) : ∃ d, cache_slot s idx = .ok d := by
  obtain ⟨hlen, hall⟩ := hready
  have hlt : idx.toNat < s.saved_cpu_info.length := by omega
  have hget : s.saved_cpu_info[idx.toNat]? = some s.saved_cpu_info[idx.toNat] :=
    List.getElem?_eq_getElem hlt
  have hmem : s.saved_cpu_info[idx.toNat] ∈ s.saved_cpu_info := List.getElem_mem hlt
  cases hv : s.saved_cpu_info[idx.toNat] with
  | none => exact absurd hv (hall _ hmem)
  | some d =>
    refine ⟨d, ?_⟩
    unfold cache_slot
    rw [if_neg (by omega), hget, hv]

theorem cache_memcpy_ready (MAX : Nat) (s : State) (idx : Int) (d : _remote_cpu_info_data)
    (hready : cache_ready MAX s) (h0 : 0 ≤ idx) (h1 : idx < MAX) :
    cache_memcpy s idx d
      = .ok { s with saved_cpu_info := s.saved_cpu_info.set idx.toNat (some d) } := by
  obtain ⟨d0, hd0⟩ := cache_slot_ready MAX s idx hready h0 h1
  unfold cache_memcpy
  rw [hd0]

theorem cache_slot_out_of_range (s : State) (idx : Int)
    (h : idx < 0 ∨ (s.saved_cpu_info.length : Int) ≤ idx) :
    cache_slot s idx = .error (.cache_index idx) := by
  unfold cache_slot
  by_cases hneg : idx < 0
  · rw [if_pos hneg]
  · rw [if_neg hneg]
    have hle : s.saved_cpu_info.length ≤ idx.toNat := by omega
    rw [List.getElem?_eq_none hle]

theorem cache_slot_in_range (s : State) (idx : Int) (h0 : 0 ≤ idx)
    (h1 : idx < s.saved_cpu_info.length) (i : Int) :
    cache_slot s idx ≠ .error (.cache_index i) := by
  unfold cache_slot
  rw [if_neg (by omega)]
  have hlt : idx.toNat < s.saved_cpu_info.length := by omega
  rw [List.getElem?_eq_getElem hlt]
  cases s.saved_cpu_info[idx.toNat] <;> simp

/-- Evaluation of the response handler on a station that exists. -/
theorem handle_response_eval (s : State) (response : remote_cpu_info_data_t) (i : Nat)
    (ws : wait_station) (hid : response.origin_ws = (i : Int))
    (hws : s.wait_stations[i]? = some ws) :
    handle_remote_cpu_info_response s response =
      if wrap_int (ws.pendings_count - 1) = 0 then
        .ok (0, { s with
          wait_stations := s.wait_stations.set i
            { ws with priv := some response, pendings_count := wrap_int (ws.pendings_count - 1),
                      pendings := ws.pendings + 1 },
          trace := s.trace ++ [.complete i] })
      else
        .ok (0, { s with
          wait_stations := s.wait_stations.set i
            { ws with priv := some response,
                      pendings_count := wrap_int (ws.pendings_count - 1) } }) := by
  unfold handle_remote_cpu_info_response wait_station_lookup
  rw [hid]
  simp only [Int.toNat_ofNat, hws, atomic_dec_and_test, emit]
  have hnn : ¬ ((i : Int) < 0) := by omega
  rw [if_neg hnn]
  by_cases hz : wrap_int (ws.pendings_count - 1) = 0
  · simp [hz]
  · simp [hz]

/-! ## The response handler and the wait station -/

/-- C4. A response whose `origin_ws` names a station with pending counter 1
is stored in the payload slot of that station, the counter drops to 0 and the
completion is signalled exactly once; when the counter holds any other
`int` value the handler signals nothing. -/
theorem deliver_on_live_station (s : State) (response : remote_cpu_info_data_t)
    (ws : wait_station) (hid : response.origin_ws = (ws.id : Int))
    (hws : s.wait_stations[ws.id]? = some ws) :
    (ws.pendings_count = 1 →
      handle_remote_cpu_info_response s response =
        .ok (0, { s with
          wait_stations := s.wait_stations.set ws.id
            { ws with priv := some response, pendings_count := 0, pendings := ws.pendings + 1 },
          trace := s.trace ++ [.complete ws.id] })) ∧
    (ws.pendings_count ≠ 1 → -2 ^ 31 ≤ ws.pendings_count → ws.pendings_count < 2 ^ 31 →
      ∃ s1, handle_remote_cpu_info_response s response = .ok (0, s1) ∧
        s1.trace = s.trace ∧
        (s1.wait_stations[ws.id]?).map (fun w => w.pendings) = some ws.pendings) := by
  have hev := handle_response_eval s response ws.id ws hid hws
  have hlt : ws.id < s.wait_stations.length := by
    rcases List.getElem?_eq_some.mp hws with ⟨h, _⟩
    exact h
  constructor
  · intro h1
    rw [hev, h1]
    have hz : wrap_int (1 - 1) = 0 := by decide
    rw [if_pos hz, hz]
  · intro hne h0 h1
    have hz := wrap_int_pred_ne_zero ws.pendings_count h0 h1 hne
    rw [hev, if_neg hz]
    refine ⟨_, rfl, rfl, ?_⟩
    simp [List.getElem?_set_self hlt]

/-- Witness for C4: station 0 of a fresh node, allocated and then handed a
response. -/
theorem deliver_on_live_station_witness :
    (handle_remote_cpu_info_response
        { node4 with wait_stations := [{ idle_station 0 with in_use := true, pendings_count := 1 },
                                       idle_station 1] }
        (response_for 0 x86_two_cores) =
      .ok (0, { node4 with
          wait_stations := [{ id := 0, in_use := true, pendings_count := 0,
                              priv := some (response_for 0 x86_two_cores), pendings := 1 },
                            idle_station 1],
          trace := [.complete 0] })) :=
  (deliver_on_live_station
    { node4 with wait_stations := [{ idle_station 0 with in_use := true, pendings_count := 1 },
                                   idle_station 1] }
    (response_for 0 x86_two_cores)
    { idle_station 0 with in_use := true, pendings_count := 1 } rfl rfl).1 rfl

/-- Evaluation of `get_wait_station` when it succeeds. -/
theorem get_wait_station_eval (s : State) (i : Nat) (s1 : State)
    (hget : get_wait_station s = .ok (i, s1)) :
    i < s.wait_stations.length ∧
    s1 = { s with wait_stations := s.wait_stations.set i (fresh_station i) } := by
  unfold get_wait_station at hget
  cases hf : first_free s.wait_stations with
  | none => simp [hf] at hget
  | some j =>
    simp only [hf, Except.ok.injEq, Prod.mk.injEq] at hget
    obtain ⟨hj, hs⟩ := hget
    subst hj
    exact ⟨first_free_lt _ _ hf, hs.symm⟩

theorem completions_append_complete (t : List Event) (i : Nat) :
    completions (t ++ [.complete i]) = completions t ++ [i] := by
  induction t with
  | nil => rfl
  | cons e rest ih => cases e <;> simp [completions, ih]

/-- C5, as the code has it. For a station just created (pending 1) and two
responses carrying its id, the two runs of the handler signal the
completion once in total, by the first run; the second run leaves the
counter at -1 and overwrites the payload slot with the second response. -/
theorem duplicate_delivery_signals_once (s s1 : State) (i : Nat)
    (r1 r2 : remote_cpu_info_data_t) (hget : get_wait_station s = .ok (i, s1))
    (h1 : r1.origin_ws = (i : Int)) (h2 : r2.origin_ws = (i : Int)) :
    ∃ s2 s3, handle_remote_cpu_info_response s1 r1 = .ok (0, s2) ∧
      handle_remote_cpu_info_response s2 r2 = .ok (0, s3) ∧
      completions s2.trace = completions s.trace ++ [i] ∧
      s3.trace = s2.trace ∧
      s3.wait_stations[i]? =
        some { id := i, in_use := true, pendings_count := -1, priv := some r2, pendings := 1 } := by
  obtain ⟨hlt, hs1⟩ := get_wait_station_eval s i s1 hget
  subst hs1
  have e1 := handle_response_eval
    { s with wait_stations := s.wait_stations.set i (fresh_station i) }
    r1 i (fresh_station i) h1 (List.getElem?_set_self hlt)
  have hz : wrap_int ((fresh_station i).pendings_count - 1) = 0 := by
    show wrap_int (1 - 1) = 0
    decide
  simp only [hz, if_true] at e1
  have hlt2 : i < (s.wait_stations.set i (fresh_station i)).length := by
    simpa using hlt
  have e2 := handle_response_eval
    { s with
      wait_stations := (s.wait_stations.set i (fresh_station i)).set i
        { fresh_station i with priv := some r1, pendings_count := 0,
                               pendings := (fresh_station i).pendings + 1 },
      trace := s.trace ++ [.complete i] }
    r2 i
    { fresh_station i with priv := some r1, pendings_count := 0,
                           pendings := (fresh_station i).pendings + 1 }
    h2 (List.getElem?_set_self hlt2)
  have hm : wrap_int ((0 : Int) - 1) ≠ 0 := by decide
  simp only [hm, if_false] at e2
  refine ⟨_, _, e1, e2, completions_append_complete s.trace i, rfl, ?_⟩
  have hm1 : wrap_int (-1) = -1 := by decide
  simp [hm1, hlt, fresh_station]

/-- Witness for C5: station 0 of a fresh node and two different responses. -/
theorem duplicate_delivery_signals_once_witness :
    ∃ s2 s3, handle_remote_cpu_info_response
        { node4 with wait_stations :=
            [{ id := 0, in_use := true, pendings_count := 1, priv := none, pendings := 0 },
             idle_station 1] }
        (response_for 0 x86_two_cores) = .ok (0, s2) ∧
      handle_remote_cpu_info_response s2 (response_for 0 arm_eight_cores) = .ok (0, s3) ∧
      completions s2.trace = completions node4.trace ++ [0] ∧
      s3.trace = s2.trace ∧
      s3.wait_stations[0]? =
        some { id := 0, in_use := true, pendings_count := -1,
               priv := some (response_for 0 arm_eight_cores), pendings := 1 } :=
  duplicate_delivery_signals_once node4 _ 0 (response_for 0 x86_two_cores)
    (response_for 0 arm_eight_cores) rfl rfl rfl

/-- C5 as stated fails: after two different responses for station 0 the
payload slot holds the second response, not the first. -/
theorem duplicate_delivery_overwrites_payload :
    handle_remote_cpu_info_response
        { node4 with wait_stations :=
            [{ id := 0, in_use := true, pendings_count := 1, priv := none, pendings := 0 },
             idle_station 1] }
        (response_for 0 x86_two_cores) =
      .ok (0, { node4 with
          wait_stations :=
            [{ id := 0, in_use := true, pendings_count := 0,
               priv := some (response_for 0 x86_two_cores), pendings := 1 }, idle_station 1],
          trace := [.complete 0] }) ∧
    handle_remote_cpu_info_response
        { node4 with
          wait_stations :=
            [{ id := 0, in_use := true, pendings_count := 0,
               priv := some (response_for 0 x86_two_cores), pendings := 1 }, idle_station 1],
          trace := [.complete 0] }
        (response_for 0 arm_eight_cores) =
      .ok (0, { node4 with
          wait_stations :=
            [{ id := 0, in_use := true, pendings_count := -1,
               priv := some (response_for 0 arm_eight_cores), pendings := 1 }, idle_station 1],
          trace := [.complete 0] }) ∧
    some (response_for 0 arm_eight_cores) ≠ some (response_for 0 x86_two_cores) :=
  ⟨rfl, rfl, by decide⟩

/-! ## The caller and the responder -/

/-- C2. For a request whose `nid` is a valid node id, once the response
buffer is allocated the handler returns with the cache slot of `nid` equal
to the whole payload of the request, whatever the state was before and whatever
the collector and the transport answer afterwards. -/
theorem bidirectional_learning (env : Env) (MAX : Nat) (s : State)
    (request : remote_cpu_info_data_t) (hready : cache_ready MAX s)
    (h0 : 0 ≤ request.nid) (h1 : request.nid < MAX) (halloc : env.kzalloc_ok = true) :
    ∃ s1, handle_remote_cpu_info_request env s request = .ok (0, s1) ∧
      s1.saved_cpu_info[request.nid.toNat]? = some (some request.cpu_info_data) := by
  have hcopy := cache_memcpy_ready MAX s request.nid request.cpu_info_data hready h0 h1
  have hlt : request.nid.toNat < s.saved_cpu_info.length := by
    have := hready.1
    omega
  unfold handle_remote_cpu_info_request
  simp only [halloc, hcopy, Bool.not_true, Bool.false_eq_true, if_false]
  by_cases hfill : env.fill_cpu_info.1 < 0
  · simp only [hfill, if_true]
    exact ⟨_, rfl, by simp [emit, List.getElem?_set_self hlt]⟩
  · simp only [hfill, if_false]
    split
    · exact ⟨_, rfl, by simp [emit, List.getElem?_set_self hlt]⟩
    · exact ⟨_, rfl, by simp [emit, List.getElem?_set_self hlt]⟩

/-- Witness for C2: node 0 has never queried node 3 and its collector fails,
yet a request from node 3 fills slot 3. -/
theorem bidirectional_learning_witness :
    ∃ s1, handle_remote_cpu_info_request env_fill_fails node4 (request_from 3) = .ok (0, s1) ∧
      s1.saved_cpu_info[(request_from 3).nid.toNat]? = some (some arm_eight_cores) :=
  bidirectional_learning env_fill_fails 4 node4 (request_from 3) (by decide) (by decide)
    (by decide) rfl

theorem sent_messages_append (t u : List Event) :
    sent_messages (t ++ u) = sent_messages t ++ sent_messages u := by
  induction t with
  | nil => rfl
  | cons e rest ih => cases e <;> simp [sent_messages, ih]

/-- C3. When the response buffer is allocated, the request names a valid
node and local collection succeeds, the handler sends exactly one message:
to `request.nid`, of type RESPONSE, with `nid = my_nid`, with the
`origin_ws` of the request unchanged, and with the record of the collector as
payload. -/
theorem correlation_echo (env : Env) (MAX : Nat) (s : State)
    (request : remote_cpu_info_data_t) (hready : cache_ready MAX s)
    (h0 : 0 ≤ request.nid) (h1 : request.nid < MAX) (halloc : env.kzalloc_ok = true)
    (hfill : 0 ≤ env.fill_cpu_info.1) :
    ∃ s1 m, handle_remote_cpu_info_request env s request = .ok (0, s1) ∧
      sent_messages s1.trace = sent_messages s.trace ++ [(request.nid, m)] ∧
      m.header.type = .PCN_KMSG_TYPE_REMOTE_PROC_CPUINFO_RESPONSE ∧
      m.nid = env.my_nid ∧
      m.origin_ws = request.origin_ws ∧
      m.cpu_info_data = env.fill_cpu_info.2 := by
  have hcopy := cache_memcpy_ready MAX s request.nid request.cpu_info_data hready h0 h1
  have hnf : ¬ env.fill_cpu_info.1 < 0 := by omega
  unfold handle_remote_cpu_info_request
  simp only [halloc, hcopy, Bool.not_true, Bool.false_eq_true, if_false, hnf]
  split
  · refine ⟨_, { header := { type := .PCN_KMSG_TYPE_REMOTE_PROC_CPUINFO_RESPONSE,
                             prio := .PCN_KMSG_PRIO_NORMAL },
                 cpu_info_data := env.fill_cpu_info.2,
                 nid := env.my_nid,
                 origin_ws := request.origin_ws }, rfl, ?_, rfl, rfl, rfl, rfl⟩
    simp [emit, sent_messages_append, sent_messages]
  · refine ⟨_, { header := { type := .PCN_KMSG_TYPE_REMOTE_PROC_CPUINFO_RESPONSE,
                             prio := .PCN_KMSG_PRIO_NORMAL },
                 cpu_info_data := env.fill_cpu_info.2,
                 nid := env.my_nid,
                 origin_ws := request.origin_ws }, rfl, ?_, rfl, rfl, rfl, rfl⟩
    simp [emit, sent_messages_append, sent_messages]

/-- Witness for C3: node 0 answers a request from node 3. -/
theorem correlation_echo_witness :
    ∃ s1 m, handle_remote_cpu_info_request env_good node4 (request_from 3) = .ok (0, s1) ∧
      sent_messages s1.trace = sent_messages node4.trace ++ [((request_from 3).nid, m)] ∧
      m.header.type = .PCN_KMSG_TYPE_REMOTE_PROC_CPUINFO_RESPONSE ∧
      m.nid = env_good.my_nid ∧
      m.origin_ws = (request_from 3).origin_ws ∧
      m.cpu_info_data = env_good.fill_cpu_info.2 :=
  correlation_echo env_good 4 node4 (request_from 3) (by decide) (by decide) (by decide) rfl
    (by decide)

/-- C1. For a peer `nid` below `MAX_POPCORN_NODES` and a response delivered
to the station the caller allocated, `send_remote_cpu_info_request` returns
and the cache slot of `nid` then equals the whole payload of the response,
whatever the slot held before. -/
theorem caller_round_trip (env : Env) (MAX : Nat) (s : State) (nid ws : Nat)
    (response : remote_cpu_info_data_t) (hready : cache_ready MAX s) (hnid : nid < MAX)
    (halloc : env.kzalloc_ok = true) (hws : first_free s.wait_stations = some ws)
    (hresp : response.origin_ws = (ws : Int)) :
    ∃ s1, send_remote_cpu_info_request env [response] s nid = .ok (.returned s1) ∧
      s1.saved_cpu_info[nid]? = some (some response.cpu_info_data) := by
  have hlt : ws < s.wait_stations.length := first_free_lt _ _ hws
  have hget : get_wait_station s
      = .ok (ws, { s with wait_stations := s.wait_stations.set ws (fresh_station ws) }) := by
    unfold get_wait_station
    rw [hws]
  have hz : wrap_int ((fresh_station ws).pendings_count - 1) = 0 := by
    show wrap_int (1 - 1) = 0
    decide
  -- the state after the send
  generalize hreq : ({ header := { type := .PCN_KMSG_TYPE_REMOTE_PROC_CPUINFO_REQUEST,
                                   prio := .PCN_KMSG_PRIO_NORMAL },
                       cpu_info_data := env.fill_cpu_info.2,
                       nid := env.my_nid,
                       origin_ws := (ws : Int) } : remote_cpu_info_data_t) = request
  have hdel := handle_response_eval
    { s with wait_stations := s.wait_stations.set ws (fresh_station ws),
             trace := s.trace ++ [.pcn_kmsg_send nid request] }
    response ws (fresh_station ws) hresp (List.getElem?_set_self hlt)
  simp only [hz, if_true] at hdel
  have hready5 : ∀ (l : List wait_station) (t : List Event),
      cache_ready MAX { s with wait_stations := l, trace := t } := fun _ _ => hready
  have hnid0 : (0 : Int) ≤ (nid : Int) := by omega
  have hnid1 : (nid : Int) < (MAX : Int) := by omega
  have hlen : nid < s.saved_cpu_info.length := by
    have := hready.1
    omega
  unfold send_remote_cpu_info_request
  simp only [hget, halloc, Bool.not_true, Bool.false_eq_true, if_false, hreq, emit,
    deliver_responses, hdel, wait_at_station, put_wait_station]
  simp only [List.length_set, hlt, List.getElem?_set_self, fresh_station]
  simp only [Nat.zero_add, Nat.succ_ne_zero, if_false, Nat.add_sub_cancel]
  rw [List.getElem?_set_self (by simpa using hlt)]
  simp only []
  rw [cache_memcpy_ready MAX _ nid response.cpu_info_data (hready5 _ _) hnid0 hnid1]
  exact ⟨_, rfl, by simp [List.getElem?_set_self hlen]⟩

/-- Witness for C1: node 0 queries node 1, whose answer is an arm64 record. -/
theorem caller_round_trip_witness :
    ∃ s1, send_remote_cpu_info_request env_good [response_for 0 arm_eight_cores] node4 1
        = .ok (.returned s1) ∧
      s1.saved_cpu_info[1]? = some (some (response_for 0 arm_eight_cores).cpu_info_data) :=
  caller_round_trip env_good 4 node4 1 0 (response_for 0 arm_eight_cores) (by decide)
    (by decide) rfl rfl rfl

/-! ## Failure paths -/

/-- C6, evaluated. Node 0 queries node 1 over a transport whose send fails
with a negative code and no response ever arrives: the call does not end,
it suspends on the wait station, and station 0 stays allocated. -/
theorem send_failure_still_blocks :
    env_send_fails.pcn_kmsg_send 1
        { header := { type := .PCN_KMSG_TYPE_REMOTE_PROC_CPUINFO_REQUEST,
                      prio := .PCN_KMSG_PRIO_NORMAL },
          cpu_info_data := x86_two_cores, nid := 0, origin_ws := 0 } < 0 ∧
    send_remote_cpu_info_request env_send_fails [] node4 1 =
      .ok (.blocked { node4 with
        wait_stations := [fresh_station 0, idle_station 1],
        trace := [.pcn_kmsg_send 1
          { header := { type := .PCN_KMSG_TYPE_REMOTE_PROC_CPUINFO_REQUEST,
                        prio := .PCN_KMSG_PRIO_NORMAL },
            cpu_info_data := x86_two_cores, nid := 0, origin_ws := 0 }] }) ∧
    (fresh_station 0).in_use = true :=
  ⟨by decide, rfl, rfl⟩

/-- C7, evaluated. Node 0 receives a request from node 3 and its collector
fails: no message is sent and the response buffer is freed, but the request
buffer is never released. The trace of the run is the single `kfree`. -/
theorem collect_failure_leaks_request :
    handle_remote_cpu_info_request env_fill_fails node4 (request_from 3) =
      .ok (0, { node4 with
        saved_cpu_info := [some zero_cpu_info, some zero_cpu_info, some zero_cpu_info,
                           some arm_eight_cores],
        trace := [.kfree
          { header := { type := .PCN_KMSG_TYPE_REMOTE_PROC_CPUINFO_RESPONSE,
                        prio := .PCN_KMSG_PRIO_NORMAL },
            cpu_info_data := zero_cpu_info, nid := 0, origin_ws := 5 }] }) ∧
    Event.pcn_kmsg_free_msg (request_from 3) ∉
      [Event.kfree
          { header := { type := .PCN_KMSG_TYPE_REMOTE_PROC_CPUINFO_RESPONSE,
                        prio := .PCN_KMSG_PRIO_NORMAL },
            cpu_info_data := zero_cpu_info, nid := 0, origin_ws := 5 }] :=
  ⟨rfl, by decide⟩

/-! ## Index range -/

/-- C8 as stated fails: on a node with four cache slots, a request whose
`nid` is -1 or 4, and a call with argument 4 or 7, reach the access to
`saved_cpu_info` with that index. -/
theorem out_of_range_nid_reaches_cache :
    node4.saved_cpu_info.length = 4 ∧
    handle_remote_cpu_info_request env_good node4 (request_from (-1))
      = .error (.cache_index (-1)) ∧
    handle_remote_cpu_info_request env_good node4 (request_from 4)
      = .error (.cache_index 4) ∧
    get_number_cpus_from_remote_node node4 4 = .error (.cache_index 4) ∧
    remote_proc_cpu_info node4 [] 4 0 = .error (.cache_index 4) ∧
    send_remote_cpu_info_request env_good [response_for 0 arm_eight_cores] node4 7
      = .error (.cache_index 7) :=
  ⟨rfl, rfl, rfl, rfl, rfl, rfl⟩

/-- The response handler leaves the cache and the sends alone, and faults
only on a station index. -/
theorem handle_response_frame (s : State) (r : remote_cpu_info_data_t) :
    (∀ e, handle_remote_cpu_info_response s r = .error e → ∃ i, e = .station_index i) ∧
    (∀ ret s1, handle_remote_cpu_info_response s r = .ok (ret, s1) →
      s1.saved_cpu_info = s.saved_cpu_info ∧
      sent_messages s1.trace = sent_messages s.trace) := by
  unfold handle_remote_cpu_info_response wait_station_lookup
  by_cases hneg : r.origin_ws < 0
  · simp [hneg]
  · simp only [hneg, if_false]
    cases hget : s.wait_stations[r.origin_ws.toNat]? with
    | none => simp
    | some ws =>
      simp only []
      split
      · refine ⟨by simp, ?_⟩
        intro ret s1 h
        simp only [Except.ok.injEq, Prod.mk.injEq] at h
        obtain ⟨_, hs⟩ := h
        subst hs
        simp [emit, sent_messages_append, sent_messages]
      · refine ⟨by simp, ?_⟩
        intro ret s1 h
        simp only [Except.ok.injEq, Prod.mk.injEq] at h
        obtain ⟨_, hs⟩ := h
        subst hs
        exact ⟨rfl, rfl⟩

/-- Delivering any number of responses leaves the cache and the sends alone,
and faults only on a station index. -/
theorem deliver_responses_frame (l : List remote_cpu_info_data_t) (s : State) :
    (∀ e, deliver_responses s l = .error e → ∃ i, e = .station_index i) ∧
    (∀ s1, deliver_responses s l = .ok s1 →
      s1.saved_cpu_info = s.saved_cpu_info ∧
      sent_messages s1.trace = sent_messages s.trace) := by
  induction l generalizing s with
  | nil =>
    simp only [deliver_responses]
    refine ⟨by simp, ?_⟩
    intro s1 h
    simp only [Except.ok.injEq] at h
    subst h
    exact ⟨rfl, rfl⟩
  | cons r rest ih =>
    simp only [deliver_responses]
    have hf := handle_response_frame s r
    cases hh : handle_remote_cpu_info_response s r with
    | error e =>
      simp only []
      refine ⟨?_, by simp⟩
      intro e1 he
      simp only [Except.error.injEq] at he
      subst he
      exact hf.1 e hh
    | ok p =>
      obtain ⟨ret, s2⟩ := p
      simp only []
      obtain ⟨hc, ht⟩ := hf.2 ret s2 hh
      refine ⟨(ih s2).1, ?_⟩
      intro s1 h
      obtain ⟨hc1, ht1⟩ := (ih s2).2 s1 h
      exact ⟨hc1.trans hc, ht1.trans ht⟩

/-- The caller with an argument inside the cache: the cache access stays in
range and the only message it sends goes to `nid`. -/
theorem caller_index_frame (env : Env) (arrivals : List remote_cpu_info_data_t) (s : State)
    (nid : Nat) (hnid : nid < s.saved_cpu_info.length) :
    (∀ i, send_remote_cpu_info_request env arrivals s nid ≠ .error (.cache_index i)) ∧
    (∀ o, send_remote_cpu_info_request env arrivals s nid = .ok o →
      ∀ p ∈ sent_messages o.state.trace, p ∈ sent_messages s.trace ∨ p.1 = (nid : Int)) := by
  unfold send_remote_cpu_info_request get_wait_station
  cases hf : first_free s.wait_stations with
  | none => simp
  | some ws =>
    simp only []
    cases halloc : env.kzalloc_ok with
    | false => simp
    | true =>
      simp only [Bool.not_true, Bool.false_eq_true, if_false]
      generalize hreq : ({ header := { type := .PCN_KMSG_TYPE_REMOTE_PROC_CPUINFO_REQUEST,
                                       prio := .PCN_KMSG_PRIO_NORMAL },
                           cpu_info_data := env.fill_cpu_info.2,
                           nid := env.my_nid,
                           origin_ws := (ws : Int) } : remote_cpu_info_data_t) = request
      generalize hs2 : emit { s with wait_stations := s.wait_stations.set ws (fresh_station ws) }
        (.pcn_kmsg_send nid request) = s2
      have hs2c : s2.saved_cpu_info = s.saved_cpu_info := by subst hs2; rfl
      have hs2t : sent_messages s2.trace = sent_messages s.trace ++ [((nid : Int), request)] := by
        subst hs2
        simp [emit, sent_messages_append, sent_messages]
      have hfr := deliver_responses_frame arrivals s2
      cases hd : deliver_responses s2 arrivals with
      | error e =>
        obtain ⟨j, hj⟩ := hfr.1 e hd
        subst hj
        simp
      | ok s3 =>
        obtain ⟨hc3, ht3⟩ := hfr.2 s3 hd
        have hsent3 : ∀ p ∈ sent_messages s3.trace,
            p ∈ sent_messages s.trace ∨ p.1 = (nid : Int) := by
          intro p hp
          rw [ht3, hs2t] at hp
          rcases List.mem_append.mp hp with h | h
          · exact Or.inl h
          · right
            simp only [List.mem_singleton] at h
            rw [h]
        simp only [wait_at_station]
        cases hw : s3.wait_stations[ws]? with
        | none => simp
        | some w =>
          simp only []
          by_cases hp0 : w.pendings = 0
          · simp only [hp0, if_true]
            refine ⟨by simp, ?_⟩
            intro o ho
            simp only [Except.ok.injEq] at ho
            subst ho
            exact hsent3
          · simp only [hp0, if_false]
            cases hpriv : w.priv with
            | none => simp
            | some response =>
              simp only [put_wait_station]
              split
              · rename_i e hput
                split at hput
                · simp only [Except.error.injEq] at hput
                  subst hput
                  simp
                · simp at hput
              · rename_i s5 hput
                have hc5 : s5.saved_cpu_info = s.saved_cpu_info := by
                  split at hput
                  · simp at hput
                  · simp only [Except.ok.injEq] at hput
                    subst hput
                    exact hc3.trans hs2c
                have ht5 : s5.trace = s3.trace := by
                  split at hput
                  · simp at hput
                  · simp only [Except.ok.injEq] at hput
                    subst hput
                    rfl
                have hin := cache_slot_in_range s5 nid (by omega) (by rw [hc5]; exact_mod_cast hnid)
                unfold cache_memcpy
                cases hslot : cache_slot s5 nid with
                | error e =>
                  simp only []
                  refine ⟨?_, by simp⟩
                  intro i hi
                  simp only [Except.error.injEq] at hi
                  subst hi
                  exact hin i hslot
                | ok d0 =>
                  simp only []
                  refine ⟨by simp, ?_⟩
                  intro o ho
                  simp only [Except.ok.injEq] at ho
                  subst ho
                  intro p hp
                  apply hsent3
                  simpa [Outcome.state, emit, sent_messages_append, sent_messages, ht5] using hp

/-- The responder with a request whose `nid` is inside the cache: the cache
access stays in range and the only message it sends goes to `request.nid`. -/
theorem responder_index_frame (env : Env) (s : State) (request : remote_cpu_info_data_t)
    (h0 : 0 ≤ request.nid) (h1 : request.nid < s.saved_cpu_info.length) :
    (∀ i, handle_remote_cpu_info_request env s request ≠ .error (.cache_index i)) ∧
    (∀ ret s1, handle_remote_cpu_info_request env s request = .ok (ret, s1) →
      ∀ p ∈ sent_messages s1.trace, p ∈ sent_messages s.trace ∨ p.1 = request.nid) := by
  have hin := cache_slot_in_range s request.nid h0 h1
  unfold handle_remote_cpu_info_request cache_memcpy
  cases halloc : env.kzalloc_ok with
  | false =>
    simp only [Bool.not_false, if_true]
    refine ⟨by simp, ?_⟩
    intro ret s1 h
    simp only [Except.ok.injEq, Prod.mk.injEq] at h
    obtain ⟨_, hs⟩ := h
    subst hs
    exact fun p hp => Or.inl hp
  | true =>
    simp only [Bool.not_true, Bool.false_eq_true, if_false]
    cases hslot : cache_slot s request.nid with
    | error e =>
      simp only []
      refine ⟨?_, by simp⟩
      intro i hi
      simp only [Except.error.injEq] at hi
      subst hi
      exact hin i hslot
    | ok d0 =>
      simp only []
      refine ⟨by split <;> [simp; (split <;> simp)], ?_⟩
      intro ret s1 h
      split at h
      · simp only [Except.ok.injEq, Prod.mk.injEq] at h
        obtain ⟨_, hs⟩ := h
        subst hs
        intro p hp
        left
        simpa [emit, sent_messages_append, sent_messages] using hp
      · split at h
        · simp only [Except.ok.injEq, Prod.mk.injEq] at h
          obtain ⟨_, hs⟩ := h
          subst hs
          intro p hp
          simp only [emit, sent_messages_append, sent_messages, List.append_nil,
            List.mem_append, List.mem_singleton] at hp
          rcases hp with hp | hp
          · exact Or.inl hp
          · right; rw [hp]
        · simp only [Except.ok.injEq, Prod.mk.injEq] at h
          obtain ⟨_, hs⟩ := h
          subst hs
          intro p hp
          simp only [emit, sent_messages_append, sent_messages, List.append_nil,
            List.mem_append, List.mem_singleton] at hp
          rcases hp with hp | hp
          · exact Or.inl hp
          · right; rw [hp]

/-- C8, as the code has it. On a node whose cache has `MAX_POPCORN_NODES`
slots, an argument or request `nid` inside `[0, MAX_POPCORN_NODES)` keeps
every access to `saved_cpu_info` in range, and every message the caller or
the responder sends goes to that `nid`. The functions make no range check of
their own: an out-of-range `nid` reaches the array access as it is. -/
theorem index_in_range_for_valid_nid (env : Env) (MAX : Nat) (s : State)
    (hlen : s.saved_cpu_info.length = MAX) :
    (∀ request : remote_cpu_info_data_t, 0 ≤ request.nid → request.nid < MAX →
      (∀ i, handle_remote_cpu_info_request env s request ≠ .error (.cache_index i)) ∧
      (∀ ret s1, handle_remote_cpu_info_request env s request = .ok (ret, s1) →
        ∀ p ∈ sent_messages s1.trace, p ∈ sent_messages s.trace ∨ p.1 = request.nid)) ∧
    (∀ (arrivals : List remote_cpu_info_data_t) (nid : Nat), nid < MAX →
      (∀ i, send_remote_cpu_info_request env arrivals s nid ≠ .error (.cache_index i)) ∧
      (∀ o, send_remote_cpu_info_request env arrivals s nid = .ok o →
        ∀ p ∈ sent_messages o.state.trace, p ∈ sent_messages s.trace ∨ p.1 = (nid : Int))) ∧
    (∀ nid : Nat, nid < MAX →
      (∀ i, get_number_cpus_from_remote_node s nid ≠ .error (.cache_index i)) ∧
      (∀ m vpos i, remote_proc_cpu_info s m nid vpos ≠ .error (.cache_index i))) ∧
    (∀ request : remote_cpu_info_data_t, env.kzalloc_ok = true →
      request.nid < 0 ∨ (MAX : Int) ≤ request.nid →
      handle_remote_cpu_info_request env s request = .error (.cache_index request.nid)) ∧
    (∀ nid : Nat, MAX ≤ nid →
      get_number_cpus_from_remote_node s nid = .error (.cache_index nid) ∧
      (∀ m vpos, remote_proc_cpu_info s m nid vpos = .error (.cache_index nid))) := by
  subst hlen
  refine ⟨?_, ?_, ?_, ?_, ?_⟩
  · intro request h0 h1
    exact responder_index_frame env s request h0 h1
  · intro arrivals nid hnid
    exact caller_index_frame env arrivals s nid hnid
  · intro nid hnid
    have hin := cache_slot_in_range s nid (by omega) (by exact_mod_cast hnid)
    constructor
    · intro i
      unfold get_number_cpus_from_remote_node
      cases hslot : cache_slot s nid with
      | error e =>
        simp only []
        intro hi
        simp only [Except.error.injEq] at hi
        subst hi
        exact hin i hslot
      | ok d => simp only []; split <;> simp
    · intro m vpos i
      unfold remote_proc_cpu_info
      cases hslot : cache_slot s nid with
      | error e =>
        simp only []
        intro hi
        simp only [Except.error.injEq] at hi
        subst hi
        exact hin i hslot
      | ok d => simp
  · intro request halloc hout
    unfold handle_remote_cpu_info_request cache_memcpy
    simp [halloc, cache_slot_out_of_range s request.nid hout]
  · intro nid hnid
    have hout := cache_slot_out_of_range s nid (Or.inr (by exact_mod_cast hnid))
    constructor
    · unfold get_number_cpus_from_remote_node
      rw [hout]
    · intro m vpos
      unfold remote_proc_cpu_info
      simp [hout]

/-- Witness for C8: the four-slot node. -/
theorem index_in_range_for_valid_nid_witness :
    node4.saved_cpu_info.length = 4 ∧
    (∀ i, get_number_cpus_from_remote_node node4 3 ≠ .error (.cache_index i)) ∧
    get_number_cpus_from_remote_node node4 4 = .error (.cache_index 4) :=
  ⟨rfl,
   ((index_in_range_for_valid_nid env_good 4 node4 rfl).2.2.1 3 (by decide)).1,
   ((index_in_range_for_valid_nid env_good 4 node4 rfl).2.2.2.2 4 (by decide)).1⟩

end Popcorn

namespace Meminfo

/-! ## Arithmetic of the memory report -/

theorem two_pow_pos (w : Nat) : 0 < 2 ^ w := Nat.pos_pow_of_pos w (by decide)

theorem wadd_lt (w a b : Nat) : wadd w a b < 2 ^ w :=
  Nat.mod_lt _ (two_pow_pos w)

theorem wsub_lt (w a b : Nat) : wsub w a b < 2 ^ w :=
  Nat.mod_lt _ (two_pow_pos w)

/-- An `unsigned long` subtraction that does not underflow is the plain
difference. -/
theorem wsub_of_le (w a b : Nat) (ha : a < 2 ^ w) (hb : b ≤ a) : wsub w a b = a - b := by
  unfold wsub
  generalize 2 ^ w = M at ha
  have hbM : b % M = b := Nat.mod_eq_of_lt (by omega)
  rw [hbM]
  have h : a + (M - b) = (a - b) + M := by omega
  rw [h, Nat.add_mod_right, Nat.mod_eq_of_lt (by omega)]

theorem to_ulong_natCast (w n : Nat) : to_ulong w (n : Int) = n % 2 ^ w := by
  unfold to_ulong
  rw [Int.ofNat_mod_ofNat, Int.toNat_natCast]

theorem to_ulong_cast (w : Nat) (z : Int) :
    ((to_ulong w z : Nat) : Int) = z % ((2 ^ w : Nat) : Int) := by
  unfold to_ulong
  have hpos : (0 : Int) < ((2 ^ w : Nat) : Int) := by exact_mod_cast two_pow_pos w
  exact Int.toNat_of_nonneg (Int.emod_nonneg _ (by omega))

/-- Converting an `unsigned long` to `long` and back gives it back. -/
theorem to_ulong_to_long (w x : Nat) (hx : x < 2 ^ w) : to_ulong w (to_long w x) = x := by
  apply Int.ofNat.inj
  show ((to_ulong w (to_long w x) : Nat) : Int) = (x : Int)
  rw [to_ulong_cast]
  unfold to_long
  rw [Nat.mod_eq_of_lt hx]
  have hx0 : (0 : Int) ≤ (x : Int) := by omega
  have hxM : (x : Int) < ((2 ^ w : Nat) : Int) := by exact_mod_cast hx
  split
  · exact Int.emod_eq_of_lt hx0 hxM
  · rw [Int.emod_sub_cancel]
    exact Int.emod_eq_of_lt hx0 hxM

theorem to_ulong_lt (w : Nat) (z : Int) : to_ulong w z < 2 ^ w := by
  have hpos : (0 : Int) < ((2 ^ w : Nat) : Int) := by exact_mod_cast two_pow_pos w
  have h := Int.emod_lt_of_pos z hpos
  rw [← to_ulong_cast] at h
  exact_mod_cast h

/-- Adding an `unsigned long` to a `long` held as `unsigned long`. -/
theorem wadd_to_ulong (w : Nat) (z : Int) (p : Nat) :
    wadd w (to_ulong w z) p = to_ulong w (z + p) := by
  apply Int.ofNat.inj
  show ((wadd w (to_ulong w z) p : Nat) : Int) = ((to_ulong w (z + p) : Nat) : Int)
  unfold wadd
  rw [Int.natCast_mod, Int.natCast_add, to_ulong_cast, to_ulong_cast, Int.emod_add_emod]

/-- An `unsigned long` subtraction is the integer difference reduced. -/
theorem wsub_eq_to_ulong (w a b : Nat) : wsub w a b = to_ulong w ((a : Int) - b) := by
  apply Int.ofNat.inj
  show ((wsub w a b : Nat) : Int) = ((to_ulong w ((a : Int) - b) : Nat) : Int)
  rw [to_ulong_cast]
  unfold wsub
  have hlt : b % 2 ^ w < 2 ^ w := Nat.mod_lt _ (two_pow_pos w)
  rw [Int.natCast_mod, Int.natCast_add, Int.natCast_sub (Nat.le_of_lt hlt), Int.natCast_mod]
  generalize ((2 ^ w : Nat) : Int) = M
  have h : (a : Int) + (M - (b : Int) % M) = ((a : Int) - (b : Int) % M) + M := by ring
  rw [h, Int.add_emod_self, Int.sub_emod, Int.emod_emod_of_dvd _ (dvd_refl M), ← Int.sub_emod]

/-- The value of `available` before the clamp, as one integer sum reduced to
a `long`. -/
theorem available_sum (w freeram wmark_low pc_term sl_term : Nat) :
    wadd w (to_ulong w (to_long w (wadd w (to_ulong w (to_long w (wsub w freeram wmark_low)))
        pc_term))) sl_term
      = to_ulong w ((freeram : Int) - wmark_low + pc_term + sl_term) := by
  rw [to_ulong_to_long w _ (wsub_lt w freeram wmark_low), wsub_eq_to_ulong]
  rw [wadd_to_ulong w ((freeram : Int) - wmark_low) pc_term]
  rw [to_ulong_to_long w _ (to_ulong_lt w _), wadd_to_ulong]

/-- C10. With `pagecache = active_file + inactive_file` as an
`unsigned long`, the subtraction of line 76 does not underflow and its
result lies between `pagecache - pagecache / 2` and `pagecache`; the slab
term of lines 83-84 does not underflow either; and `available` after the
clamp is non-negative and equals `max 0` of
`freeram - wmark_low + pagecache term + slab term` taken as a `long`. -/
theorem mem_available_estimate (w freeram wmark_low active_file inactive_file
    slab_reclaimable : Nat) (hslab : slab_reclaimable < 2 ^ w) :
    min (pagecache_total w active_file inactive_file / 2) wmark_low
      ≤ pagecache_total w active_file inactive_file ∧
    pagecache_term w wmark_low active_file inactive_file
      = pagecache_total w active_file inactive_file
        - min (pagecache_total w active_file inactive_file / 2) wmark_low ∧
    pagecache_total w active_file inactive_file
        - pagecache_total w active_file inactive_file / 2
      ≤ pagecache_term w wmark_low active_file inactive_file ∧
    pagecache_term w wmark_low active_file inactive_file
      ≤ pagecache_total w active_file inactive_file ∧
    min (slab_reclaimable / 2) wmark_low ≤ slab_reclaimable ∧
    slab_term w wmark_low slab_reclaimable
      = slab_reclaimable - min (slab_reclaimable / 2) wmark_low ∧
    0 ≤ available w freeram wmark_low active_file inactive_file slab_reclaimable ∧
    available w freeram wmark_low active_file inactive_file slab_reclaimable
      = max 0 (to_long w (to_ulong w ((freeram : Int) - wmark_low
          + pagecache_term w wmark_low active_file inactive_file
          + slab_term w wmark_low slab_reclaimable))) := by
  have hpc : pagecache_total w active_file inactive_file < 2 ^ w := wadd_lt w _ _
  have hmin1 : min (pagecache_total w active_file inactive_file / 2) wmark_low
      ≤ pagecache_total w active_file inactive_file := by omega
  have hmin2 : min (slab_reclaimable / 2) wmark_low ≤ slab_reclaimable := by omega
  have hterm : pagecache_term w wmark_low active_file inactive_file
      = pagecache_total w active_file inactive_file
        - min (pagecache_total w active_file inactive_file / 2) wmark_low := by
    unfold pagecache_term
    exact wsub_of_le w _ _ hpc hmin1
  have hsl : slab_term w wmark_low slab_reclaimable
      = slab_reclaimable - min (slab_reclaimable / 2) wmark_low := by
    unfold slab_term
    exact wsub_of_le w _ _ hslab hmin2
  have hav : available w freeram wmark_low active_file inactive_file slab_reclaimable
      = max 0 (to_long w (to_ulong w ((freeram : Int) - wmark_low
          + pagecache_term w wmark_low active_file inactive_file
          + slab_term w wmark_low slab_reclaimable))) := by
    unfold available
    simp only [available_sum]
    split
    · rw [max_eq_left (by omega)]
    · rw [max_eq_right (by omega)]
  refine ⟨hmin1, hterm, ?_, ?_, hmin2, hsl, ?_, hav⟩
  · rw [hterm]; omega
  · rw [hterm]; omega
  · rw [hav]; exact le_max_left _ _

/-- Witness for C10: a 64-bit machine with 1000 free pages, a low watermark
of 300, a page cache of 400 + 200 pages and 100 reclaimable slab pages. -/
theorem mem_available_estimate_witness :
    (100 : Nat) < 2 ^ 64 ∧ pagecache_term 64 300 400 200 = 300 ∧
    slab_term 64 300 100 = 50 ∧ available 64 1000 300 400 200 100 = 1050 := by
  have h := mem_available_estimate 64 1000 300 400 200 100 (by norm_num)
  exact ⟨by norm_num, h.2.1.trans (by decide), h.2.2.2.2.2.1.trans (by decide),
    h.2.2.2.2.2.2.2.trans (by decide)⟩

/-! ## The aggregated report -/

theorem zip_map_self {α β : Type} (g : α → β) (l : List α) :
    l.zip (l.map g) = l.map (fun a => (a, g a)) := by
  induction l with
  | nil => rfl
  | cons a rest ih => simp [ih]

theorem K_congr (cfg : Config) (x y : Nat) (h : x % 2 ^ cfg.w = y % 2 ^ cfg.w) :
    K cfg x = K cfg y := by
  unfold K wshl
  rw [Nat.mul_mod x, Nat.mul_mod y, h]

theorem K_wadd (cfg : Config) (a b : Nat) : K cfg (wadd cfg.w a b) = K cfg (a + b) :=
  K_congr cfg _ _ (Nat.mod_mod _ _)

theorem K_wmul (cfg : Config) (a b : Nat) : K cfg (wmul cfg.w a b) = K cfg (a * b) :=
  K_congr cfg _ _ (Nat.mod_mod _ _)

theorem K_mod (cfg : Config) (a : Nat) : K cfg (a % 2 ^ cfg.w) = K cfg a :=
  K_congr cfg _ _ (Nat.mod_mod _ _)

theorem K_to_ulong (cfg : Config) (z : Int) (hz : 0 ≤ z) :
    K cfg (to_ulong cfg.w z) = K cfg z.toNat := by
  apply K_congr
  obtain ⟨n, rfl⟩ := Int.eq_ofNat_of_zero_le hz
  rw [to_ulong_natCast, Int.toNat_natCast, Nat.mod_mod]

theorem available_nonneg (w freeram wmark_low active_file inactive_file slab_reclaimable : Nat) :
    0 ≤ available w freeram wmark_low active_file inactive_file slab_reclaimable := by
  unfold available
  simp only []
  split
  · exact le_refl 0
  · omega

theorem cached_nonneg (cfg : Config) (k : Kernel) : 0 ≤ cached cfg k := by
  unfold cached
  simp only []
  split
  · exact le_refl 0
  · omega

theorem K_available (cfg : Config) (k : Kernel) :
    K cfg (to_ulong cfg.w (available_of cfg k)) = K cfg (available_of cfg k).toNat :=
  K_to_ulong cfg _ (available_nonneg _ _ _ _ _ _)

theorem K_cached (cfg : Config) (k : Kernel) :
    K cfg (to_ulong cfg.w (cached cfg k)) = K cfg (cached cfg k).toNat :=
  K_to_ulong cfg _ (cached_nonneg cfg k)

/-- Local kilobytes plus a remote field, as the code forms the sum. -/
theorem kb_plus_remote (cfg : Config) (x r : Nat) :
    (pages_to_kb cfg x + r) % 2 ^ cfg.w = wadd cfg.w (K cfg x) r := by
  unfold wadd K wshl pages_to_kb
  rw [Nat.mod_add_mod]

theorem wshl_eq_K (cfg : Config) (x : Nat) : wshl cfg.w x (cfg.PAGE_SHIFT - 10) = K cfg x := rfl

theorem plain_plus_remote (w x r : Nat) : (x + r) % 2 ^ w = wadd w x r := rfl

theorem map_ite_list {α β : Type} (c : Bool) (g : α → β) (a : List α) :
    (if c = true then a else []).map g = if c = true then a.map g else [] := by
  cases c <;> rfl

theorem map_ite_not_list {α β : Type} (c : Bool) (g : α → β) (a : List α) :
    (if (!c) = true then a else []).map g = if (!c) = true then a.map g else [] := by
  cases c <;> rfl

/-- The arguments of the `seq_printf` are the aggregated values of its tags,
one by one. -/
theorem args_eq_aggregated (cfg : Config) (k : Kernel) (rem_mem : remote_mem_info_response_t) :
    meminfo_args cfg k rem_mem = (meminfo_format cfg).map (aggregated cfg k rem_mem) := by
  unfold meminfo_args meminfo_format
  simp only [List.map_append, map_ite_list, map_ite_not_list, List.map_cons, List.map_nil]
  simp only [aggregated, local_kb, remote_field, reduceCtorEq, or_self, or_false, false_or,
    if_false, if_true, kb_plus_remote, K_wadd, K_wmul, K_mod, K_available, K_cached, wshl_eq_K]
  simp only [plain_plus_remote]

/-- With an all-zero remote record every line is its local value. -/
theorem aggregated_zero_remote (cfg : Config) (k : Kernel) (l : Label) :
    aggregated cfg k zero_remote l = local_kb cfg k l % 2 ^ cfg.w := by
  cases l <;> simp [aggregated, remote_field, zero_remote, local_kb]

/-- C9. Every value the `seq_printf` of `meminfo_proc_show` prints, other
than VmallocUsed and VmallocChunk, is the local quantity in kilobytes plus
the field of `rem_mem` named like the line, as `unsigned long`; VmallocUsed
and VmallocChunk are printed as 0 whatever `rem_mem` holds; and with an
all-zero `rem_mem` the report is the local-only report. -/
theorem memory_aggregation (cfg : Config) (k : Kernel) (rem_mem : remote_mem_info_response_t) :
    meminfo_proc_show cfg k rem_mem
      = (meminfo_format cfg).map (fun l => (l, aggregated cfg k rem_mem l)) ∧
    (∀ l, l ≠ .VmallocUsed → l ≠ .VmallocChunk →
      aggregated cfg k rem_mem l = (local_kb cfg k l + remote_field rem_mem l) % 2 ^ cfg.w) ∧
    aggregated cfg k rem_mem .VmallocUsed = 0 ∧
    aggregated cfg k rem_mem .VmallocChunk = 0 ∧
    (.VmallocUsed, 0) ∈ meminfo_proc_show cfg k rem_mem ∧
    (.VmallocChunk, 0) ∈ meminfo_proc_show cfg k rem_mem ∧
    meminfo_proc_show cfg k zero_remote = local_only_report cfg k := by
  have hshow : ∀ r : remote_mem_info_response_t, meminfo_proc_show cfg k r
      = (meminfo_format cfg).map (fun l => (l, aggregated cfg k r l)) := by
    intro r
    unfold meminfo_proc_show
    rw [args_eq_aggregated, zip_map_self]
  have hused : aggregated cfg k rem_mem .VmallocUsed = 0 := by simp [aggregated]
  have hchunk : aggregated cfg k rem_mem .VmallocChunk = 0 := by simp [aggregated]
  refine ⟨hshow rem_mem, ?_, hused, hchunk, ?_, ?_, ?_⟩
  · intro l h1 h2
    simp [aggregated, h1, h2]
  · rw [hshow]
    refine List.mem_map.mpr ⟨.VmallocUsed, ?_, by rw [hused]⟩
    simp [meminfo_format]
  · rw [hshow]
    refine List.mem_map.mpr ⟨.VmallocChunk, ?_, by rw [hchunk]⟩
    simp [meminfo_format]
  · rw [hshow]
    unfold local_only_report
    exact List.map_congr_left (fun l _ => by rw [aggregated_zero_remote])

end Meminfo
